import Mathlib

/-!
Verification of authd-oidc-brokers: a shallow embedding of the broker's
data model and operations, with theorems about the authentication-mode
decision policy, the session state machine, the token cache, session
teardown, the auth-flow engine's cache-persist handling, the dbus service
lifecycle, and the golden-file test options.

Definitions come first, then the theorems.
-/

namespace authmodes

/-- Password is the ID of the password authentication method
(src/internal/broker/authmodes/consts.go). -/
def Password : String := "password"

/-- Device is the ID of the device authentication method. -/
def Device : String := "device_auth"

/-- DeviceQr is the ID of the device authentication method when QrCode
rendering is enabled. -/
def DeviceQr : String := "device_auth_qr"

/-- NewPassword is the ID of the new password configuration method. -/
def NewPassword : String := "newpassword"

end authmodes

namespace ModeDecider

/-- The authentication modes a provider can offer, one constructor per
identifier in src/internal/broker/authmodes/consts.go. -/
inductive Mode where
  | password
  | device
  | deviceQr
  | newPassword
deriving DecidableEq, Repr

/-- The string identifier of each mode, tying the inductive back to the
constants of the authmodes package. -/
def Mode.id : Mode → String
  | .password => authmodes.Password
  | .device => authmodes.Device
  | .deviceQr => authmodes.DeviceQr
  | .newPassword => authmodes.NewPassword

/-- Error signalled by the mode decision when no rule produces a
non-empty list. -/
inductive DecideError where
  | noModeAvailable
deriving DecidableEq, Repr

/-- Modelled from the spec: the provider-advertised endpoints set, as the
mode decision consumes it.  The implementation of
ProviderInfoer.CurrentAuthenticationModesOffered is not under src/ (only
the interface in src/internal/providers/providers.go is), so the endpoint
facts are modelled from spec §4.2: whether the set advertises a
device-authorization endpoint. -/
structure Endpoints where
  hasDeviceAuth : Bool
deriving DecidableEq, Repr

/-- The session purpose that triggers the new-password step after a
successful authentication (spec §4.2 rule 1). -/
def passwordSetupPurpose : String := "login-with-local-password-setup"

/-- Modelled from the spec: the pure mode-decision function
`decide(purpose, tokenExists, providerReachable, supportedEndpoints, step)`
of spec §4.2 (the implementation behind
ProviderInfoer.CurrentAuthenticationModesOffered is not under src/).
Policy in precedence order: (1) step > 0 for the local-password-setup
purpose offers only NewPassword; (2) provider unreachable offers Password
iff a cached token exists, else NoModeAvailable; (3) provider reachable
offers Password, plus Device if a device-authorization endpoint is
advertised, plus DeviceQr if additionally QR rendering is enabled;
(4) ordering: password before the device flows. -/
def decide (purpose : String) (tokenExists providerReachable : Bool)
    (endpoints : Endpoints) (qrEnabled : Bool) (step : Nat) :
    Except DecideError (List Mode) :=
  if 0 < step ∧ purpose = passwordSetupPurpose then
    .ok [.newPassword]
  else if !providerReachable then
    if tokenExists then .ok [.password] else .error .noModeAvailable
  else
    .ok ([.password]
      ++ (if endpoints.hasDeviceAuth then [.device] else [])
      ++ (if endpoints.hasDeviceAuth && qrEnabled then [.deviceQr] else []))

end ModeDecider

namespace SessionManager

/-- Modelled from the spec: the per-session state of spec §3
(SessionManager is not under src/; the dbus transport in
src/internal/dbusservice/dbusservice.go only forwards to it). -/
inductive SessionState where
  | created
  | modeOffered
  | authenticating
  | authenticated
  | denied
  | ended
deriving DecidableEq, Repr

/-- Errors of the broker call surface (spec §7 taxonomy, the part the
session state machine raises). -/
inductive CallError where
  | unknownSession
  | wrongState
  | noModeAvailable
deriving DecidableEq, Repr

/-- Progress reported by the flow backing an IsAuthenticated call:
still polling, granted, or denied (spec §4.1). -/
inductive FlowReport where
  | stillPolling
  | granted
  | denied
deriving DecidableEq, Repr

/-- The access values IsAuthenticated can return (spec §6). -/
inductive AuthResult where
  | authenticating
  | granted
  | denied
deriving DecidableEq, Repr

/-- Modelled from the spec: IsAuthenticated on a session (none when the
ID is not live).  Fails with UnknownSession when the session is not
live and WrongState when its state is not Authenticating; otherwise
returns the flow's progress, transitioning to Authenticated on granted
and to Denied on denied (spec §4.1). -/
def isAuthenticated (s : Option SessionState) (flow : FlowReport) :
    Except CallError (AuthResult × SessionState) :=
  match s with
  | none => .error .unknownSession
  | some st =>
    if st ≠ .authenticating then .error .wrongState
    else match flow with
      | .stillPolling => .ok (.authenticating, .authenticating)
      | .granted => .ok (.granted, .authenticated)
      | .denied => .ok (.denied, .denied)

/-- The calls a client can make on one session after NewSession, with the
flow progress an IsAuthenticated call observes (spec §4.1). -/
inductive Op where
  | getAuthModes
  | selectAuthMode
  | isAuthenticated (flow : FlowReport)
  | cancelIsAuthenticated
  | endSession
deriving DecidableEq, Repr

/-- Whether an operation is a SelectAuthenticationMode call. -/
def Op.isSelect : Op → Bool
  | .selectAuthMode => true
  | _ => false

/-- Modelled from the spec: one step of a session's state machine
(spec §4.1).  GetAuthenticationModes moves Created/ModeOffered to
ModeOffered (idempotent before selection); SelectAuthenticationMode
succeeds only in ModeOffered and moves to Authenticating;
IsAuthenticated follows `isAuthenticated`; CancelIsAuthenticated
returns an Authenticating session to ModeOffered and is a no-op
otherwise; EndSession releases the session. -/
def step (s : Option SessionState) (op : Op) : Option SessionState :=
  match s, op with
  | none, _ => none
  | some st, .getAuthModes =>
    if st = .created ∨ st = .modeOffered then some .modeOffered else some st
  | some st, .selectAuthMode =>
    if st = .modeOffered then some .authenticating else some st
  | some st, .isAuthenticated flow =>
    match isAuthenticated (some st) flow with
    | .ok (_, st') => some st'
    | .error _ => some st
  | some st, .cancelIsAuthenticated =>
    if st = .authenticating then some .modeOffered else some st
  | some _, .endSession => none

/-- Run a trace of calls on a session freshly created by NewSession. -/
def run (t : List Op) : Option SessionState :=
  t.foldl step (some .created)

end SessionManager

namespace TokenCache

/-- The durable per-username record of spec §3 (CachedToken). -/
structure CachedToken where
  accessToken : String
  refreshToken : String
  idToken : String
  expiry : Nat
deriving DecidableEq, Repr

/-- Modelled from the spec: the token cache maps usernames to at most one
record each (TokenCache is not under src/); atomic replace means a store
replaces the whole record for that username. -/
def CacheState : Type := String → Option CachedToken

/-- The cache before any store. -/
def emptyCache : CacheState := fun _ => none

/-- Store(username, token): atomic replace of the record for username. -/
def store (c : CacheState) (u : String) (t : CachedToken) : CacheState :=
  fun v => if v = u then some t else c v

/-- Load(username): the record for username, or none for NotFound. -/
def load (c : CacheState) (u : String) : Option CachedToken :=
  c u

/-- Apply a sequence of Store operations in order. -/
def applyStores (c : CacheState) (ops : List (String × CachedToken)) : CacheState :=
  ops.foldl (fun acc p => store acc p.1 p.2) c

end TokenCache

namespace Broker

/-- Modelled from the spec: the broker's observable state for session
teardown (SessionManager is not under src/): the session table and the
cached tokens (spec §3, §4.1). -/
structure BrokerState where
  sessions : List (String × SessionManager.SessionState)
  tokens : List (String × TokenCache.CachedToken)
deriving DecidableEq, Repr

/-- Modelled from the spec: EndSession(sessionID) cancels any in-progress
attempt, releases the session and its key, and is idempotent — it never
returns an error, and on an already-released ID it is a no-op
(spec §4.1). -/
def endSession (b : BrokerState) (id : String) :
    BrokerState × Option SessionManager.CallError :=
  ({ b with sessions := b.sessions.filter (fun p => p.1 != id) }, none)

end Broker

namespace AuthFlowEngine

/-- Authentication failures the engine can report (spec §7). -/
inductive AuthError where
  | authDenied
  | providerUnreachable
  | deviceFlowExpired
  | cacheWriteError
  | validationError
deriving DecidableEq, Repr

/-- The overall outcome of one authentication attempt (spec §4.3). -/
inductive EngineResult where
  | succeeded (token : TokenCache.CachedToken)
  | failed (e : AuthError)
  | cancelled
deriving DecidableEq, Repr

/-- Modelled from the spec: the completion step of a network-backed
attempt (AuthFlowEngine is not under src/).  If the provider rejected the
credential the attempt fails with that error; if the provider accepted,
the engine persists the token via TokenCache before reporting success,
and a persist failure (storeOk = false) degrades the overall result to
Failed with CacheWriteError (spec §4.3). -/
def finalizeNetworkAuth (u : String) (c : TokenCache.CacheState)
    (providerResult : Except AuthError TokenCache.CachedToken)
    (storeOk : Bool) : EngineResult × TokenCache.CacheState :=
  match providerResult with
  | .error e => (.failed e, c)
  | .ok t =>
    if storeOk then (.succeeded t, TokenCache.store c u t)
    else (.failed .cacheWriteError, c)

end AuthFlowEngine

namespace dbusservice

/-- The observable state of the dbus Service for Stop
(src/internal/dbusservice/dbusservice.go): whether the serve channel is
closed, and how many times the disconnect callback ran. -/
structure ServiceState where
  name : String
  serveClosed : Bool
  disconnectCalls : Nat
deriving DecidableEq, Repr

/-- Service.Stop: if the serve channel is already closed this is a no-op;
otherwise it closes the channel and invokes disconnect.  It always
returns nil (modelled as none). -/
def stop (s : ServiceState) : ServiceState × Option String :=
  if s.serveClosed then (s, none)
  else ({ s with serveClosed := true, disconnectCalls := s.disconnectCalls + 1 }, none)

/-- Outcomes of the external calls New makes after the config checks:
broker.New, getBus, the two Export calls, and RequestName (whether the
call errored and whether the reply is PrimaryOwner). -/
structure Env where
  brokerNewOk : Bool
  getBusOk : Bool
  exportBrokerOk : Bool
  exportIntrospectOk : Bool
  requestNameOk : Bool
  requestNameReplyPrimary : Bool
deriving DecidableEq, Repr

/-- The Service value New builds on success. -/
structure Service where
  name : String
deriving DecidableEq, Repr

/-- What New returns together with which side effects happened:
whether broker.New was called and whether a bus name was requested. -/
structure NewOutcome where
  service : Option Service
  err : Option String
  brokerNewCalled : Bool
  busNameRequested : Bool
deriving DecidableEq, Repr

/-- dbusservice.New after a successful parseConfig
(src/internal/dbusservice/dbusservice.go): an empty dbus name or an empty
object path is rejected before the broker is constructed or the bus name
is requested; afterwards the calls happen in source order and any failure
aborts with an error. -/
def new (name : String) (objectPath : String) (env : Env) : NewOutcome :=
  if name = "" then
    ⟨none, some "missing required name for dbus service", false, false⟩
  else if objectPath = "" then
    ⟨none, some "missing required object path for dbus service", false, false⟩
  else if !env.brokerNewOk then
    ⟨none, some "broker construction failed", true, false⟩
  else if !env.getBusOk then
    ⟨none, some "could not connect to the bus", true, false⟩
  else if !env.exportBrokerOk then
    ⟨none, some "could not export the broker object", true, false⟩
  else if !env.exportIntrospectOk then
    ⟨none, some "could not export introspection data", true, false⟩
  else if !env.requestNameOk then
    ⟨none, some "RequestName failed", true, true⟩
  else if !env.requestNameReplyPrimary then
    ⟨none, some "name is already taken in the bus", true, true⟩
  else
    ⟨some ⟨name⟩, none, true, true⟩

end dbusservice

namespace testutils

/-- The options record of the golden-file helpers (src/unnamed/part_000,
package testutils). -/
structure goldenOptions where
  path : String
deriving DecidableEq, Repr

/-- WithGoldenPath overrides the default path for golden files used; the
returned option only assigns the path when the argument is non-empty
(src/unnamed/part_000). -/
def WithGoldenPath (path : String) (o : goldenOptions) : goldenOptions :=
  if path ≠ "" then { o with path := path } else o

end testutils

/-- Claim C1: on the first step, the mode decision returns exactly
[Password] when a token exists and the provider is unreachable; signals
NoModeAvailable when no token exists and the provider is unreachable; and
when the provider is reachable returns Password, plus Device if a
device-authorization endpoint is advertised, plus DeviceQr if
additionally QR rendering is enabled, regardless of tokenExists. -/
theorem modeDecider_offered_cases (purpose : String)
    (endpoints : ModeDecider.Endpoints) (qrEnabled : Bool) :
    ModeDecider.decide purpose true false endpoints qrEnabled 0 =
      .ok [.password]
    ∧ ModeDecider.decide purpose false false endpoints qrEnabled 0 =
      .error .noModeAvailable
    ∧ ∀ tokenExists : Bool,
        ModeDecider.decide purpose tokenExists true endpoints qrEnabled 0 =
          .ok ([.password]
            ++ (if endpoints.hasDeviceAuth then [.device] else [])
            ++ (if endpoints.hasDeviceAuth && qrEnabled then [.deviceQr] else [])) := by
  refine ⟨?_, ?_, ?_⟩ <;> simp [ModeDecider.decide]

/-- Claim C3: the four authentication-mode identifiers are exactly the
strings "password", "device_auth", "device_auth_qr" and "newpassword",
and every mode the decision function can name maps to one of them. -/
theorem authmode_identifiers :
    authmodes.Password = "password"
    ∧ authmodes.Device = "device_auth"
    ∧ authmodes.DeviceQr = "device_auth_qr"
    ∧ authmodes.NewPassword = "newpassword"
    ∧ ∀ m : ModeDecider.Mode,
        m.id = authmodes.Password ∨ m.id = authmodes.Device
        ∨ m.id = authmodes.DeviceQr ∨ m.id = authmodes.NewPassword := by
  refine ⟨rfl, rfl, rfl, rfl, fun m => ?_⟩
  cases m <;> simp [ModeDecider.Mode.id]

/-- Every successful mode decision yields one of four concrete lists. -/
theorem decide_ok_cases (purpose : String) (tokenExists providerReachable : Bool)
    (endpoints : ModeDecider.Endpoints) (qrEnabled : Bool) (step : Nat)
    (l : List ModeDecider.Mode)
    (h : ModeDecider.decide purpose tokenExists providerReachable endpoints
      qrEnabled step = .ok l) :
    l = [.newPassword] ∨ l = [.password] ∨ l = [.password, .device]
    ∨ l = [.password, .device, .deviceQr] := by
  rcases endpoints with ⟨devEp⟩
  unfold ModeDecider.decide at h
  split at h
  · cases h; exact Or.inl rfl
  · cases tokenExists <;> cases providerReachable <;>
      cases devEp <;> cases qrEnabled <;> simp_all

/-- Claim C7: in every non-empty list the mode decision returns, the
interactive Password mode precedes the device-flow modes Device and
DeviceQr (and Device precedes DeviceQr). -/
theorem modeDecider_password_before_device_flows (purpose : String)
    (tokenExists providerReachable : Bool) (endpoints : ModeDecider.Endpoints)
    (qrEnabled : Bool) (step : Nat) (l : List ModeDecider.Mode)
    (h : ModeDecider.decide purpose tokenExists providerReachable endpoints
      qrEnabled step = .ok l) :
    (ModeDecider.Mode.device ∈ l →
      l.indexOf ModeDecider.Mode.password < l.indexOf ModeDecider.Mode.device)
    ∧ (ModeDecider.Mode.deviceQr ∈ l →
      l.indexOf ModeDecider.Mode.password < l.indexOf ModeDecider.Mode.deviceQr
      ∧ l.indexOf ModeDecider.Mode.device < l.indexOf ModeDecider.Mode.deviceQr) := by
  rcases decide_ok_cases purpose tokenExists providerReachable endpoints
    qrEnabled step l h with h' | h' | h' | h' <;> subst h' <;> exact ⟨by decide, by decide⟩

/-- Witness for C7: the decision for a reachable provider with device
endpoint and QR enabled is a concrete ordered list. -/
theorem modeDecider_password_before_device_flows_witness :
    ModeDecider.Mode.device ∈
      ([.password, .device, .deviceQr] : List ModeDecider.Mode) ∧
    ([ModeDecider.Mode.password, .device, .deviceQr].indexOf
      ModeDecider.Mode.password <
      [ModeDecider.Mode.password, .device, .deviceQr].indexOf
        ModeDecider.Mode.device) :=
  ⟨by decide,
    (modeDecider_password_before_device_flows "login" true true ⟨true⟩ true 0
      [.password, .device, .deviceQr] rfl).1 (by decide)⟩

/-- A trace with no SelectAuthenticationMode call never leaves a session
in the Authenticating state. -/
theorem noSelect_not_authenticating (t : List SessionManager.Op)
    (s : Option SessionManager.SessionState)
    (hs : s ≠ some SessionManager.SessionState.authenticating)
    (hns : t.all (fun op => ! op.isSelect) = true) :
    t.foldl SessionManager.step s ≠
      some SessionManager.SessionState.authenticating := by
  induction t generalizing s with
  | nil => exact hs
  | cons op rest ih =>
    simp only [List.all_cons, Bool.and_eq_true] at hns
    refine ih (SessionManager.step s op) ?_ hns.2
    rcases s with _ | st
    · simp [SessionManager.step]
    · cases op with
      | getAuthModes =>
        simp only [SessionManager.step]; split <;> simp_all
      | selectAuthMode =>
        exfalso; simpa [SessionManager.Op.isSelect] using hns.1
      | isAuthenticated flow =>
        have hst : st ≠ SessionManager.SessionState.authenticating := by
          simpa using hs
        simp [SessionManager.step, SessionManager.isAuthenticated, hst]
      | cancelIsAuthenticated =>
        simp only [SessionManager.step]; split <;> simp_all
      | endSession => simp [SessionManager.step]

/-- Claim C2: IsAuthenticated produces a result only on a session in the
Authenticating state — on any other session it fails with UnknownSession
or WrongState — and a freshly created session on which no
SelectAuthenticationMode call has been made is never in that state, so
IsAuthenticated cannot return a result before SelectAuthenticationMode
has transitioned the session to Authenticating. -/
theorem isAuthenticated_requires_select
    (t : List SessionManager.Op) (flow : SessionManager.FlowReport)
    (hns : t.all (fun op => ! op.isSelect) = true) :
    (∀ s : Option SessionManager.SessionState,
      s ≠ some SessionManager.SessionState.authenticating →
      ∃ e, SessionManager.isAuthenticated s flow = .error e
        ∧ (e = .unknownSession ∨ e = .wrongState))
    ∧ ∃ e, SessionManager.isAuthenticated (SessionManager.run t) flow = .error e
        ∧ (e = .unknownSession ∨ e = .wrongState) := by
  have base : ∀ s : Option SessionManager.SessionState,
      s ≠ some SessionManager.SessionState.authenticating →
      ∃ e, SessionManager.isAuthenticated s flow = .error e
        ∧ (e = .unknownSession ∨ e = .wrongState) := by
    rintro (_ | st) hs
    · exact ⟨.unknownSession, rfl, Or.inl rfl⟩
    · have hst : st ≠ SessionManager.SessionState.authenticating := by
        simpa using hs
      exact ⟨.wrongState, by simp [SessionManager.isAuthenticated, hst], Or.inr rfl⟩
  exact ⟨base, base _ (noSelect_not_authenticating t _ (by simp) hns)⟩

/-- Witness for C2: after only a GetAuthenticationModes call,
IsAuthenticated fails with UnknownSession or WrongState. -/
theorem isAuthenticated_requires_select_witness :
    ∃ e, SessionManager.isAuthenticated
        (SessionManager.run [SessionManager.Op.getAuthModes])
        SessionManager.FlowReport.granted = .error e
      ∧ (e = .unknownSession ∨ e = .wrongState) :=
  (isAuthenticated_requires_select [SessionManager.Op.getAuthModes]
    .granted (by decide)).2

/-- A sequence of stores that never touches username u leaves Load(u)
unchanged. -/
theorem load_applyStores_of_all_ne (ops : List (String × TokenCache.CachedToken))
    (c : TokenCache.CacheState) (u : String)
    (h : ops.all (fun p => p.1 != u) = true) :
    TokenCache.load (TokenCache.applyStores c ops) u = TokenCache.load c u := by
  induction ops generalizing c with
  | nil => rfl
  | cons p rest ih =>
    simp only [List.all_cons, Bool.and_eq_true, bne_iff_ne] at h
    have hne : u ≠ p.1 := fun hh => h.1 hh.symm
    have : TokenCache.load (TokenCache.store c p.1 p.2) u = TokenCache.load c u := by
      simp [TokenCache.load, TokenCache.store, hne]
    calc TokenCache.load (TokenCache.applyStores (TokenCache.store c p.1 p.2) rest) u
        = TokenCache.load (TokenCache.store c p.1 p.2) u := by
          exact ih (TokenCache.store c p.1 p.2) (by simpa using h.2)
      _ = TokenCache.load c u := this

/-- Claim C4: Store(u, t) followed by Load(u), with no intervening Store
for u, returns t; and Load(u) for a username never stored returns
NotFound (none). -/
theorem tokenCache_roundtrip (c : TokenCache.CacheState) (u : String)
    (t : TokenCache.CachedToken) (ops : List (String × TokenCache.CachedToken))
    (h : ops.all (fun p => p.1 != u) = true) :
    TokenCache.load (TokenCache.applyStores (TokenCache.store c u t) ops) u = some t
    ∧ TokenCache.load (TokenCache.applyStores TokenCache.emptyCache ops) u = none := by
  constructor
  · rw [load_applyStores_of_all_ne ops _ u h]
    simp [TokenCache.load, TokenCache.store]
  · rw [load_applyStores_of_all_ne ops _ u h]
    rfl

/-- Witness for C4: a concrete store for alice followed by a store for
bob round-trips alice's token, and bob's cache starts empty. -/
theorem tokenCache_roundtrip_witness :
    TokenCache.load
      (TokenCache.applyStores
        (TokenCache.store TokenCache.emptyCache "alice" ⟨"a", "r", "i", 7⟩)
        [("bob", ⟨"b", "s", "j", 9⟩)]) "alice" = some ⟨"a", "r", "i", 7⟩
    ∧ TokenCache.load
        (TokenCache.applyStores TokenCache.emptyCache
          [("bob", ⟨"b", "s", "j", 9⟩)]) "alice" = none :=
  tokenCache_roundtrip TokenCache.emptyCache "alice" ⟨"a", "r", "i", 7⟩
    [("bob", ⟨"b", "s", "j", 9⟩)] (by decide)

/-- Claim C5: EndSession is idempotent — running it a second time on the
same ID leaves the broker state (session table and cached tokens)
unchanged and, like the first call, returns no error. -/
theorem endSession_idempotent (b : Broker.BrokerState) (id : String) :
    Broker.endSession (Broker.endSession b id).1 id = Broker.endSession b id
    ∧ (Broker.endSession (Broker.endSession b id).1 id).2 = none
    ∧ (Broker.endSession b id).2 = none := by
  have hfilt : ∀ l : List (String × SessionManager.SessionState),
      (l.filter (fun p => p.1 != id)).filter (fun p => p.1 != id) =
        l.filter (fun p => p.1 != id) := by
    intro l
    induction l with
    | nil => rfl
    | cons p rest ih => by_cases hp : p.1 = id <;> simp [List.filter_cons, hp, ih]
  refine ⟨?_, rfl, rfl⟩
  simp [Broker.endSession, hfilt]

/-- Claim C6: when the provider accepts the credential but the token
cache persist fails, the engine reports the attempt as Failed with
CacheWriteError and never as Succeeded. -/
theorem persistFailure_degrades_to_cacheWriteError (u : String)
    (c : TokenCache.CacheState) (t : TokenCache.CachedToken) :
    (AuthFlowEngine.finalizeNetworkAuth u c (.ok t) false).1 =
      .failed .cacheWriteError
    ∧ ∀ r : TokenCache.CachedToken,
        (AuthFlowEngine.finalizeNetworkAuth u c (.ok t) false).1 ≠
          .succeeded r := by
  refine ⟨rfl, fun r h => ?_⟩
  simp [AuthFlowEngine.finalizeNetworkAuth] at h

/-- Claim C8: Service.Stop is idempotent — a second Stop leaves the
observable service state unchanged — and Stop always returns nil. -/
theorem service_stop_idempotent (s : dbusservice.ServiceState) :
    dbusservice.stop (dbusservice.stop s).1 = ((dbusservice.stop s).1, none)
    ∧ (dbusservice.stop s).2 = none := by
  constructor
  · by_cases h : s.serveClosed <;> simp [dbusservice.stop, h]
  · by_cases h : s.serveClosed <;> simp [dbusservice.stop, h]

/-- Claim C9: dbusservice.New with an empty dbus name or an empty object
path returns no Service and a non-nil error, without constructing a
broker and without requesting a bus name. -/
theorem new_rejects_empty_name_or_object (name objectPath : String)
    (env : dbusservice.Env) (h : name = "" ∨ objectPath = "") :
    (dbusservice.new name objectPath env).service = none
    ∧ (dbusservice.new name objectPath env).err ≠ none
    ∧ (dbusservice.new name objectPath env).brokerNewCalled = false
    ∧ (dbusservice.new name objectPath env).busNameRequested = false := by
  rcases h with h | h
  · subst h; simp [dbusservice.new]
  · subst h
    by_cases hn : name = "" <;> simp [dbusservice.new, hn]

/-- Witness for C9: a concrete config with an empty object path is
rejected before any side effect. -/
theorem new_rejects_empty_name_or_object_witness :
    (dbusservice.new "com.ubuntu.authd.Example" "" ⟨true, true, true, true, true, true⟩).service = none
    ∧ (dbusservice.new "com.ubuntu.authd.Example" "" ⟨true, true, true, true, true, true⟩).err ≠ none
    ∧ (dbusservice.new "com.ubuntu.authd.Example" "" ⟨true, true, true, true, true, true⟩).brokerNewCalled = false
    ∧ (dbusservice.new "com.ubuntu.authd.Example" "" ⟨true, true, true, true, true, true⟩).busNameRequested = false :=
  new_rejects_empty_name_or_object "com.ubuntu.authd.Example" ""
    ⟨true, true, true, true, true, true⟩ (Or.inr rfl)

/-- Claim C10: WithGoldenPath with the empty string leaves the options
unchanged, and with any non-empty string sets the path to exactly that
string. -/
theorem withGoldenPath_override (o : testutils.goldenOptions) :
    testutils.WithGoldenPath "" o = o
    ∧ ∀ (p : String) (o' : testutils.goldenOptions), p ≠ "" →
        (testutils.WithGoldenPath p o').path = p := by
  refine ⟨by simp [testutils.WithGoldenPath], fun p o' hp => ?_⟩
  simp [testutils.WithGoldenPath, hp]

/-- Witness for C10: a concrete non-empty path overrides the default. -/
theorem withGoldenPath_override_witness :
    (testutils.WithGoldenPath "testdata/custom" ⟨"testdata/golden"⟩).path =
      "testdata/custom" :=
  (withGoldenPath_override ⟨"testdata/golden"⟩).2 "testdata/custom"
    ⟨"testdata/golden"⟩ (by decide)
